import Mathlib

/-!
Shallow embedding of `src/SASformat_conv.py`, a Streamlit app converting SAS
XPT transport files to SAS7BDAT datasets.  The app has two modes:

* directory mode: validate the output directory (create it), validate the
  input directory, resolve `.xpt` files with
  `input_path.glob('[!.]*[xX][pP][tT]')`, loop over them with a per-item
  `try/except`, count successes and failures, and print a summary;
* single-file mode: validate the output directory, materialize the uploaded
  blob into a `NamedTemporaryFile(delete=False)`, convert, and remove the
  temporary file in a `finally` block.

The pyreadstat codec calls (`read_xport` + `write_sas7bdat`) are external
collaborators; they are modelled as a function returning `Except String Unit`
(exception message on failure).  Filesystem facts the code queries
(`is_dir`, directory enumeration order, whether `mkdir`/`os.remove`
succeed) are explicit parameters.
-/

namespace SASConv

/-! ### Python `PurePath.stem` / `PurePath.suffix`

CPython's `pathlib`:
`i = name.rfind('.')`; if `0 < i < len(name) - 1` the suffix is `name[i:]`
and the stem is `name[:i]`, otherwise the suffix is `""` and the stem is the
whole name. -/

/-- Index of the last occurrence of `c` in `cs` (Python `str.rfind`),
`none` if absent. -/
def rfindIdx (cs : List Char) (c : Char) : Option Nat :=
  match cs with
  | [] => none
  | x :: xs =>
    match rfindIdx xs c with
    | some i => some (i + 1)
    | none => if x = c then some 0 else none

/-- Python `PurePath(name).stem`. -/
def pyStem (name : String) : String :=
  let cs := name.toList
  match rfindIdx cs '.' with
  | some i => if 0 < i ∧ i < cs.length - 1 then String.mk (cs.take i) else name
  | none => name

/-- Python `PurePath(name).suffix`. -/
def pySuffix (name : String) : String :=
  let cs := name.toList
  match rfindIdx cs '.' with
  | some i => if 0 < i ∧ i < cs.length - 1 then String.mk (cs.drop i) else ""
  | none => ""

/-! ### The glob pattern `[!.]*[xX][pP][tT]` (line 118)

`fnmatch` semantics for the pattern features actually used: a literal
character, `*` (any sequence), and a character class `[...]` / negated
class `[!...]` matching exactly one character. -/

/-- One token of a glob pattern: literal char, `*`, or a (possibly negated)
character class. -/
inductive GlobTok where
  | lit (c : Char)
  | star
  | cls (neg : Bool) (chars : List Char)
deriving DecidableEq

/-- All suffixes of a character list, longest first (the candidate
remainders after `*` consumes a prefix). -/
def suffixes : List Char → List (List Char)
  | [] => [[]]
  | c :: cs => (c :: cs) :: suffixes cs

/-- `fnmatch`-style full-string matching of a token list against a list of
characters: a literal or class token consumes exactly one character; `*`
consumes an arbitrary prefix, i.e. the rest of the pattern must match some
suffix. -/
def globMatch : List GlobTok → List Char → Bool
  | [], [] => true
  | [], _ :: _ => false
  | .lit _ :: _, [] => false
  | .lit c :: ps, x :: cs => x = c && globMatch ps cs
  | .cls _ _ :: _, [] => false
  | .cls neg chars :: ps, x :: cs =>
    (if neg then !(chars.contains x) else chars.contains x) && globMatch ps cs
  | .star :: ps, cs => (suffixes cs).any fun t => globMatch ps t

/-- The trailing `[xX][pP][tT]` of the pattern. -/
def xptTail : List GlobTok :=
  [.cls false ['x', 'X'], .cls false ['p', 'P'], .cls false ['t', 'T']]

/-- The pattern `[!.]*[xX][pP][tT]` from line 118 of the source. -/
def xptPattern : List GlobTok :=
  .cls true ['.'] :: .star :: xptTail

/-- Whether a directory entry name is matched by the glob
`[!.]*[xX][pP][tT]`. -/
def matchesXptGlob (name : String) : Bool :=
  globMatch xptPattern name.toList

/-- `list(input_path.glob('[!.]*[xX][pP][tT]'))` (line 118): `Path.glob`
filters the directory enumeration by the pattern and yields entries in
enumeration order (no sorting is applied by `pathlib`). -/
def resolveXptFiles (entries : List String) : List String :=
  entries.filter matchesXptGlob

/-- Spec-side notion for C4: the file extension (Python `suffix`),
compared case-insensitively, is `xpt`. -/
def extIsXpt (name : String) : Bool :=
  (pySuffix name).toList.map Char.toLower = ['.', 'x', 'p', 't']

/-- Direct characterization of the last-three-characters test: true iff the
list has at least three characters and its last three are `x`,`p`,`t`
case-insensitively. -/
def lastThreeXpt : List Char → Bool
  | [a, b, c] =>
    (a = 'x' || a = 'X') && (b = 'p' || b = 'P') && (c = 't' || c = 'T')
  | _ :: b :: c :: d :: cs => lastThreeXpt (b :: c :: d :: cs)
  | _ => false

/-- What the glob `[!.]*[xX][pP][tT]` actually selects: a nonempty name
whose first character is not `.` and whose remaining characters end in
`x`,`p`,`t` case-insensitively (no dot required before them). -/
def xptSelectedSpec (name : String) : Bool :=
  match name.toList with
  | [] => false
  | c :: cs => !(c = '.') && lastThreeXpt cs

/-! ### Directory-conversion driver (lines 125–188)

The codec is the pair of pyreadstat calls
`read_xport` + `write_sas7bdat`; any exception it raises is modelled as
`Except.error` carrying the exception's message `str(e)`. -/

/-- The mutable state of the directory loop: `success_count`,
`error_count`, `error_details` (line 127–129), the `results_container`
success lines (input name, output name), and the order in which the codec
was invoked (for isolation properties). -/
structure BatchState where
  successCount : Nat
  errorCount : Nat
  errorDetails : List String
  successes : List (String × String)
  callLog : List String
deriving DecidableEq, Repr

/-- Initial loop state (lines 127–129). -/
def initBatchState : BatchState :=
  { successCount := 0, errorCount := 0, errorDetails := [],
    successes := [], callLog := [] }

/-- One iteration of the `for i, xpt_file_path in enumerate(xpt_files)`
loop (lines 132–174): compute `output_filename = f"(stem).sas7bdat"`,
invoke the codec inside `try`; on success increment `success_count` and
record the success line; on exception increment `error_count` and append
`f"(name): (e)"` to `error_details`.  The exception never escapes the
iteration. -/
def processItem (codec : String → Except String Unit) (s : BatchState)
    (name : String) : BatchState :=
  let outputFilename := pyStem name ++ ".sas7bdat"
  match codec name with
  | .ok _ =>
    { s with successCount := s.successCount + 1,
             successes := s.successes ++ [(name, outputFilename)],
             callLog := s.callLog ++ [name] }
  | .error e =>
    { s with errorCount := s.errorCount + 1,
             errorDetails := s.errorDetails ++ [name ++ ": " ++ e],
             callLog := s.callLog ++ [name] }

/-- The whole directory loop over the resolved file list. -/
def runBatch (codec : String → Except String Unit) (files : List String) :
    BatchState :=
  files.foldl (processItem codec) initBatchState

/-- The success entry an input contributes to `results_container`
(`none` when its conversion fails). -/
def successEntry (codec : String → Except String Unit) (name : String) :
    Option (String × String) :=
  match codec name with
  | .ok _ => some (name, pyStem name ++ ".sas7bdat")
  | .error _ => none

/-- The `error_details` line an input contributes (`none` when its
conversion succeeds). -/
def failureEntry (codec : String → Except String Unit) (name : String) :
    Option String :=
  match codec name with
  | .ok _ => none
  | .error e => some (name ++ ": " ++ e)

/-- The "Conversion Summary" block (lines 176–188): the success count is
always shown; the error count and the error-details expander only when
`error_count > 0`; the "No errors encountered" note when `error_count == 0`
and `success_count > 0`. -/
structure Summary where
  successLine : Nat
  errorLine : Option Nat
  shownDetails : List String
  noErrorsNote : Bool
deriving DecidableEq, Repr

/-- Build the summary from the final loop state (lines 176–188). -/
def mkSummary (s : BatchState) : Summary :=
  { successLine := s.successCount
  , errorLine := if s.errorCount > 0 then some s.errorCount else none
  , shownDetails := if s.errorCount > 0 then s.errorDetails else []
  , noErrorsNote := s.errorCount == 0 && s.successCount > 0 }

/-- Outcome of a directory-mode run: the validation errors of lines
86–96 and 103–108, the empty-directory warning of line 121, or a
completed batch with its summary. -/
inductive DirOutcome where
  | outputDirMissing
  | outputDirInvalid
  | inputDirMissing
  | inputDirNotFound
  | emptyWarning
  | completed (summary : Summary)
deriving DecidableEq, Repr

/-- Result of a directory-mode run: the outcome plus the codec call log
(which files were read/converted, in order). -/
structure DirRunResult where
  outcome : DirOutcome
  callLog : List String
deriving DecidableEq, Repr

/-- Directory mode end to end (lines 81–188).  `mkdirOk` is whether
`output_path.mkdir(parents=True, exist_ok=True)` succeeds (line 92),
`isDir` is `input_path.is_dir()` (line 107), and `entries` is the
directory enumeration underlying `glob` (line 118), in the order the
filesystem yields it. -/
def runDirectoryMode (outputDirStr inputDirStr : String)
    (mkdirOk isDir : Bool) (entries : List String)
    (codec : String → Except String Unit) : DirRunResult :=
  if outputDirStr = "" then ⟨.outputDirMissing, []⟩
  else if mkdirOk = false then ⟨.outputDirInvalid, []⟩
  else if inputDirStr = "" then ⟨.inputDirMissing, []⟩
  else if isDir = false then ⟨.inputDirNotFound, []⟩
  else
    let xptFiles := resolveXptFiles entries
    if xptFiles = [] then ⟨.emptyWarning, []⟩
    else
      let st := runBatch codec xptFiles
      ⟨.completed (mkSummary st), st.callLog⟩

/-! ### Single-file mode (lines 193–263)

The `try` block covers `output_path.mkdir` (line 205), the
`NamedTemporaryFile(delete=False)` materialization (lines 216–218) and the
codec calls (lines 226–239); the `finally` block (lines 257–263) removes
the temporary file when `temp_file_path` was recorded and the file exists,
and itself only warns if `os.remove` raises.  Each fallible I/O step is a
Boolean parameter; note that the temporary file comes into existence at
`NamedTemporaryFile` creation, while `temp_file_path` is assigned only
after `tmp.write` succeeds (line 218). -/

/-- The fallible collaborators of one single-file run. -/
structure SingleEnv where
  /-- `output_path.mkdir(parents=True, exist_ok=True)` (line 205) succeeds. -/
  mkdirOk : Bool
  /-- `NamedTemporaryFile(delete=False)` creation succeeds (file now exists). -/
  tempCreateOk : Bool
  /-- `tmp.write(uploaded_file.getvalue())` succeeds (only then is
  `temp_file_path = tmp.name` reached, line 218). -/
  tempWriteOk : Bool
  /-- `os.remove(temp_file_path)` in the `finally` block succeeds
  (the code catches its failure and only warns, lines 259–263). -/
  removeOk : Bool
  /-- `read_xport` + `write_sas7bdat` on the temporary file
  (lines 226–239), `Except.error` = raised exception message. -/
  convert : Except String Unit
deriving Repr

/-- What the user sees at the end of a single-file run. -/
inductive SingleOutcome where
  | errorShown (msg : String)
  | successShown (inputName outputName : String)
deriving DecidableEq, Repr

/-- Result of one single-file item: the outcome, whether the codec was
invoked, whether a temporary file was ever created, and whether one is
still on disk after the `finally` block. -/
structure SingleResult where
  outcome : SingleOutcome
  codecCalled : Bool
  tempCreated : Bool
  tempRemaining : Bool
deriving DecidableEq, Repr

/-- The single-file `try/except/finally` (lines 202–263) for an uploaded
file named `uploadedName`. -/
def runSingleFile (env : SingleEnv) (uploadedName : String) : SingleResult :=
  if env.mkdirOk = false then
    -- mkdir raised before any temporary file existed; except shows the
    -- error, finally finds temp_file_path = None
    ⟨.errorShown ("Error converting " ++ uploadedName), false, false, false⟩
  else
    let outputFilename := pyStem uploadedName ++ ".sas7bdat"
    if env.tempCreateOk = false then
      -- NamedTemporaryFile raised: no file was created
      ⟨.errorShown ("Error converting " ++ uploadedName), false, false, false⟩
    else if env.tempWriteOk = false then
      -- the file exists but tmp.write raised before line 218, so
      -- temp_file_path is still None and finally removes nothing
      ⟨.errorShown ("Error converting " ++ uploadedName), false, true, true⟩
    else
      -- temp_file_path recorded and the file exists (line 220 check passes)
      match env.convert with
      | .ok _ =>
        ⟨.successShown uploadedName outputFilename, true, true,
         !env.removeOk⟩
      | .error e =>
        ⟨.errorShown ("Error converting " ++ uploadedName ++ ": " ++ e),
         true, true, !env.removeOk⟩

/-- Single-file mode end to end (lines 81–98 and 193–263): output-directory
validation (shared with directory mode), then the uploaded-file presence
check, then the conversion.  `outerMkdirOk` is the `mkdir` of line 92. -/
def runSingleMode (outputDirStr : String) (outerMkdirOk : Bool)
    (uploaded : Option String) (env : SingleEnv) : SingleResult :=
  if outputDirStr = "" then
    ⟨.errorShown "Please provide the Output Directory Path.",
     false, false, false⟩
  else if outerMkdirOk = false then
    ⟨.errorShown "Invalid or inaccessible Output Directory Path",
     false, false, false⟩
  else
    match uploaded with
    | none =>
      ⟨.errorShown "Please upload an XPT file", false, false, false⟩
    | some name => runSingleFile env name

/-! ### Loop characterization lemmas -/

theorem foldl_processItem_callLog (codec : String → Except String Unit)
    (files : List String) (s : BatchState) :
    (files.foldl (processItem codec) s).callLog = s.callLog ++ files := by
  induction files generalizing s with
  | nil => simp
  | cons n rest ih =>
    rw [List.foldl_cons, ih]
    cases h : codec n <;> simp [processItem, h]

theorem foldl_processItem_errorDetails (codec : String → Except String Unit)
    (files : List String) (s : BatchState) :
    (files.foldl (processItem codec) s).errorDetails
      = s.errorDetails ++ files.filterMap (failureEntry codec) := by
  induction files generalizing s with
  | nil => simp
  | cons n rest ih =>
    rw [List.foldl_cons, ih]
    cases h : codec n <;> simp [processItem, failureEntry, h]

theorem foldl_processItem_successes (codec : String → Except String Unit)
    (files : List String) (s : BatchState) :
    (files.foldl (processItem codec) s).successes
      = s.successes ++ files.filterMap (successEntry codec) := by
  induction files generalizing s with
  | nil => simp
  | cons n rest ih =>
    rw [List.foldl_cons, ih]
    cases h : codec n <;> simp [processItem, successEntry, h]

theorem foldl_processItem_successCount (codec : String → Except String Unit)
    (files : List String) (s : BatchState) :
    (files.foldl (processItem codec) s).successCount
      = s.successCount + (files.filterMap (successEntry codec)).length := by
  induction files generalizing s with
  | nil => simp
  | cons n rest ih =>
    rw [List.foldl_cons, ih]
    cases h : codec n <;> (simp [processItem, successEntry, h]; try omega)

theorem foldl_processItem_errorCount (codec : String → Except String Unit)
    (files : List String) (s : BatchState) :
    (files.foldl (processItem codec) s).errorCount
      = s.errorCount + (files.filterMap (failureEntry codec)).length := by
  induction files generalizing s with
  | nil => simp
  | cons n rest ih =>
    rw [List.foldl_cons, ih]
    cases h : codec n <;> (simp [processItem, failureEntry, h]; try omega)

theorem entry_lengths_add (codec : String → Except String Unit)
    (files : List String) :
    (files.filterMap (successEntry codec)).length
      + (files.filterMap (failureEntry codec)).length = files.length := by
  induction files with
  | nil => simp
  | cons n rest ih =>
    cases h : codec n <;> simp [successEntry, failureEntry, h] <;> omega

theorem runBatch_callLog (codec : String → Except String Unit)
    (files : List String) :
    (runBatch codec files).callLog = files := by
  rw [runBatch, foldl_processItem_callLog]; rfl

theorem runBatch_errorDetails (codec : String → Except String Unit)
    (files : List String) :
    (runBatch codec files).errorDetails
      = files.filterMap (failureEntry codec) := by
  rw [runBatch, foldl_processItem_errorDetails]; rfl

theorem runBatch_successes (codec : String → Except String Unit)
    (files : List String) :
    (runBatch codec files).successes
      = files.filterMap (successEntry codec) := by
  rw [runBatch, foldl_processItem_successes]; rfl

theorem runBatch_successCount (codec : String → Except String Unit)
    (files : List String) :
    (runBatch codec files).successCount
      = (files.filterMap (successEntry codec)).length := by
  rw [runBatch, foldl_processItem_successCount]
  simp [initBatchState]

theorem runBatch_errorCount (codec : String → Except String Unit)
    (files : List String) :
    (runBatch codec files).errorCount
      = (files.filterMap (failureEntry codec)).length := by
  rw [runBatch, foldl_processItem_errorCount]
  simp [initBatchState]

/-! ### Glob characterization lemmas -/

theorem globMatch_star_xptTail (cs : List Char) :
    globMatch (.star :: xptTail) cs = lastThreeXpt cs := by
  induction cs with
  | nil => rfl
  | cons c cs ih =>
    have hstep : globMatch (.star :: xptTail) (c :: cs)
        = (globMatch xptTail (c :: cs) || globMatch (.star :: xptTail) cs) := by
      conv_lhs => rw [globMatch]
      conv_rhs => rw [globMatch]
      simp [suffixes]
    rw [hstep, ih]
    match cs with
    | [] => simp [globMatch, xptTail, lastThreeXpt]
    | [b] => simp [globMatch, xptTail, lastThreeXpt]
    | [b, d] => simp [globMatch, xptTail, lastThreeXpt, Bool.and_assoc]
    | b :: d :: e :: rest => simp [globMatch, xptTail, lastThreeXpt]

theorem matchesXptGlob_eq_spec (name : String) :
    matchesXptGlob name = xptSelectedSpec name := by
  rw [matchesXptGlob, xptSelectedSpec]
  cases h : name.toList with
  | nil => rfl
  | cons c cs =>
    have hhead : globMatch xptPattern (c :: cs)
        = ((!(['.'].contains c)) && globMatch (.star :: xptTail) cs) := by
      rfl
    rw [hhead, globMatch_star_xptTail]
    simp

/-! ### Claims -/

/-- C1: in directory mode, a codec failure on the i-th resolved file is
caught at the per-item boundary: its human-readable message is appended to
`error_details`, and the loop still invokes the codec on every file of the
list (in particular every subsequent one), so the failure never escapes
the batch loop. -/
theorem C1_single_item_failure_isolation
    (codec : String → Except String Unit) (files : List String)
    (i : Nat) (hi : i < files.length) (e : String)
    (he : codec (files.get ⟨i, hi⟩) = .error e) :
    (files.get ⟨i, hi⟩ ++ ": " ++ e) ∈ (runBatch codec files).errorDetails ∧
    (runBatch codec files).callLog = files := by
  refine ⟨?_, runBatch_callLog codec files⟩
  rw [runBatch_errorDetails]
  apply List.mem_filterMap.mpr
  refine ⟨files.get ⟨i, hi⟩, List.get_mem files i hi, ?_⟩
  simp only [failureEntry, he]

/-- Witness for C1 at a concrete batch: the first of two files fails. -/
theorem C1_witness :
    ((fun n => if n = "a.xpt" then (Except.error "boom" : Except String Unit)
        else .ok ()) "a.xpt" = .error "boom") ∧
    (("a.xpt" ++ ": " ++ "boom") ∈
        (runBatch (fun n => if n = "a.xpt" then .error "boom" else .ok ())
          ["a.xpt", "b.xpt"]).errorDetails ∧
      (runBatch (fun n => if n = "a.xpt" then .error "boom" else .ok ())
          ["a.xpt", "b.xpt"]).callLog = ["a.xpt", "b.xpt"]) :=
  ⟨rfl, C1_single_item_failure_isolation
    (fun n => if n = "a.xpt" then .error "boom" else .ok ())
    ["a.xpt", "b.xpt"] 0 (by decide) "boom" rfl⟩

/-- C2: after the directory loop, `success_count + error_count` equals the
number of resolved files, and the recorded successes and recorded failure
details are exactly the per-file entries in input order. -/
theorem C2_batch_count_invariant (codec : String → Except String Unit)
    (files : List String) :
    (runBatch codec files).successCount + (runBatch codec files).errorCount
        = files.length ∧
    (runBatch codec files).successes = files.filterMap (successEntry codec) ∧
    (runBatch codec files).errorDetails
        = files.filterMap (failureEntry codec) := by
  refine ⟨?_, runBatch_successes codec files, runBatch_errorDetails codec files⟩
  rw [runBatch_successCount, runBatch_errorCount, entry_lengths_add]

/-- C3 counterexample: the resolver applies no sort, so a directory holding
exactly b.xpt, A.xpt, a.XPT enumerated in that order is NOT returned in the
claimed case-insensitive lexicographic order A.xpt, a.XPT, b.xpt. -/
theorem C3_counterexample :
    resolveXptFiles ["b.xpt", "A.xpt", "a.XPT"]
      ≠ ["A.xpt", "a.XPT", "b.xpt"] := by
  decide

/-- C3 amended: the resolver returns the matching entries in the order the
directory enumeration yields them — a sublist of the enumeration whose
members are exactly the glob matches; no lexicographic tie-break is
applied. -/
theorem C3_amended_resolver_order (entries : List String) :
    List.Sublist (resolveXptFiles entries) entries ∧
    ∀ name, name ∈ resolveXptFiles entries
        ↔ (name ∈ entries ∧ matchesXptGlob name = true) := by
  refine ⟨List.filter_sublist entries, ?_⟩
  intro name
  simp [resolveXptFiles, List.mem_filter]

/-- C4 counterexample: `a.txpt` (extension `txpt`) is selected by the glob,
and `.hidden.xpt` (extension `xpt`) is not, so selection is not equivalent
to a case-insensitive check of the file extension. -/
theorem C4_counterexample :
    matchesXptGlob "a.txpt" = true ∧ extIsXpt "a.txpt" = false ∧
    matchesXptGlob ".hidden.xpt" = false ∧ extIsXpt ".hidden.xpt" = true := by
  decide

/-- C4 amended: a file is selected iff its name is nonempty, does not start
with a dot, and its remaining characters end in x, p, t compared
case-insensitively — no dot before that suffix is required. -/
theorem C4_amended_membership (name : String) :
    matchesXptGlob name = xptSelectedSpec name := by
  rw [matchesXptGlob, xptSelectedSpec]
  cases h : name.toList with
  | nil => rfl
  | cons c cs =>
    have hhead : globMatch xptPattern (c :: cs)
        = ((!(['.'].contains c)) && globMatch (.star :: xptTail) cs) := rfl
    rw [hhead, globMatch_star_xptTail]
    simp

/-- C5: with a valid output directory and an existing input directory whose
enumeration contains no glob match, the run ends with the empty-directory
warning and the codec is never invoked. -/
theorem C5_empty_directory (outputDirStr inputDirStr : String)
    (entries : List String) (codec : String → Except String Unit)
    (hout : outputDirStr ≠ "") (hin : inputDirStr ≠ "")
    (hempty : resolveXptFiles entries = []) :
    runDirectoryMode outputDirStr inputDirStr true true entries codec
      = ⟨.emptyWarning, []⟩ := by
  simp [runDirectoryMode, hout, hin, hempty]

/-- Witness for C5 at a concrete empty-match directory. -/
theorem C5_witness :
    (("out" : String) ≠ "" ∧ ("inp" : String) ≠ ""
      ∧ resolveXptFiles ["readme.txt"] = []) ∧
    runDirectoryMode "out" "inp" true true ["readme.txt"]
        (fun _ => Except.ok ()) = ⟨.emptyWarning, []⟩ :=
  ⟨by decide, C5_empty_directory "out" "inp" ["readme.txt"]
    (fun _ => Except.ok ()) (by decide) (by decide) (by decide)⟩

/-- C6: when the input path is not a directory, the run stops with the
not-a-valid-directory error and an empty call log: no file is read or
converted. -/
theorem C6_nonexistent_input_dir (outputDirStr inputDirStr : String)
    (entries : List String) (codec : String → Except String Unit)
    (hout : outputDirStr ≠ "") (hin : inputDirStr ≠ "") :
    runDirectoryMode outputDirStr inputDirStr true false entries codec
      = ⟨.inputDirNotFound, []⟩ := by
  simp [runDirectoryMode, hout, hin]

/-- Witness for C6 at a concrete nonexistent directory. -/
theorem C6_witness :
    (("out" : String) ≠ "" ∧ ("inp" : String) ≠ "") ∧
    runDirectoryMode "out" "inp" true false ["a.xpt"]
        (fun _ => Except.ok ()) = ⟨.inputDirNotFound, []⟩ :=
  ⟨by decide, C6_nonexistent_input_dir "out" "inp" ["a.xpt"]
    (fun _ => Except.ok ()) (by decide) (by decide)⟩

/-- C7: every recorded success, in directory mode and in single-file mode,
names its output as the input stem followed by `.sas7bdat`. -/
theorem C7_output_naming :
    (∀ (codec : String → Except String Unit) (files : List String)
        (p : String × String), p ∈ (runBatch codec files).successes →
        p.2 = pyStem p.1 ++ ".sas7bdat") ∧
    (∀ (env : SingleEnv) (uploadedName inName out : String),
        (runSingleFile env uploadedName).outcome
            = .successShown inName out →
        out = pyStem inName ++ ".sas7bdat") := by
  constructor
  · intro codec files p hp
    rw [runBatch_successes] at hp
    obtain ⟨a, ha, hfa⟩ := List.mem_filterMap.mp hp
    cases h : codec a with
    | ok v =>
      simp [successEntry, h] at hfa
      rw [← hfa]
    | error e =>
      simp [successEntry, h] at hfa
  · intro env uploadedName inName out h
    obtain ⟨mk, tc, tw, rm, cv⟩ := env
    cases mk
    · simp [runSingleFile] at h
    · cases tc
      · simp [runSingleFile] at h
      · cases tw
        · simp [runSingleFile] at h
        · cases cv with
          | ok v =>
            simp [runSingleFile] at h
            obtain ⟨h1, h2⟩ := h
            subst h1
            exact h2.symm
          | error e =>
            simp [runSingleFile] at h

/-- Witness for C7 at a concrete one-file success. -/
theorem C7_witness :
    (("a.xpt", "a.sas7bdat") ∈
        (runBatch (fun _ => Except.ok ()) ["a.xpt"]).successes) ∧
    ("a.sas7bdat" : String) = pyStem "a.xpt" ++ ".sas7bdat" :=
  ⟨by decide, C7_output_naming.1 (fun _ => Except.ok ()) ["a.xpt"]
    ("a.xpt", "a.sas7bdat") (by decide)⟩

/-- C8 counterexample: when everything up to the conversion succeeds but
the removal in the finally block fails (a case the code itself anticipates
by warning), the temporary file persists after the item completes. -/
theorem C8_counterexample :
    (runSingleFile ⟨true, true, true, false, Except.ok ()⟩
        "a.xpt").tempRemaining = true := by
  decide

/-- C8 amended: removal of the temporary file is attempted on every exit
path on which its path was recorded; whenever the materializing write and
the removal call itself succeed, no temporary file persists after the item
completes — whether the conversion succeeds or raises — and the codec is
only ever invoked after the temporary file was created. -/
theorem C8_amended_temp_cleanup (env : SingleEnv) (uploadedName : String)
    (hw : env.tempWriteOk = true) (hr : env.removeOk = true) :
    (runSingleFile env uploadedName).tempRemaining = false ∧
    ((runSingleFile env uploadedName).codecCalled = true →
      (runSingleFile env uploadedName).tempCreated = true) := by
  obtain ⟨mk, tc, tw, rm, cv⟩ := env
  simp only at hw hr
  subst hw
  subst hr
  cases mk <;> cases tc <;> cases cv <;> simp [runSingleFile]

/-- Witness for C8 amended: a failing conversion with a successful write
and removal leaves no temporary file. -/
theorem C8_witness :
    (SingleEnv.tempWriteOk ⟨true, true, true, true, Except.error "boom"⟩
        = true ∧
      SingleEnv.removeOk ⟨true, true, true, true, Except.error "boom"⟩
        = true) ∧
    ((runSingleFile ⟨true, true, true, true, Except.error "boom"⟩
        "a.xpt").tempRemaining = false ∧
      ((runSingleFile ⟨true, true, true, true, Except.error "boom"⟩
          "a.xpt").codecCalled = true →
        (runSingleFile ⟨true, true, true, true, Except.error "boom"⟩
            "a.xpt").tempCreated = true)) :=
  ⟨⟨rfl, rfl⟩, C8_amended_temp_cleanup
    ⟨true, true, true, true, Except.error "boom"⟩ "a.xpt" rfl rfl⟩


/-- C9: after a (nonempty) directory batch, the summary reports the success
count, accounts for every item (success count plus error count equals the
total), and when there are failures it shows their count and one detail
line per failed item, in order; when there are none it shows the
no-errors note. -/
theorem C9_summary_completeness (codec : String → Except String Unit)
    (files : List String) (hne : files ≠ []) :
    (mkSummary (runBatch codec files)).successLine
        + (runBatch codec files).errorCount = files.length ∧
    ((runBatch codec files).errorCount > 0 →
      (mkSummary (runBatch codec files)).errorLine
          = some ((runBatch codec files).errorCount) ∧
      (mkSummary (runBatch codec files)).shownDetails
          = files.filterMap (failureEntry codec) ∧
      (mkSummary (runBatch codec files)).shownDetails.length
          = (runBatch codec files).errorCount) ∧
    ((runBatch codec files).errorCount = 0 →
      (mkSummary (runBatch codec files)).noErrorsNote = true) := by
  have hsum : (runBatch codec files).successCount
      + (runBatch codec files).errorCount = files.length := by
    rw [runBatch_successCount, runBatch_errorCount, entry_lengths_add]
  refine ⟨?_, ?_, ?_⟩
  · simpa [mkSummary] using hsum
  · intro hpos
    refine ⟨?_, ?_, ?_⟩
    · simp [mkSummary, hpos]
    · simp [mkSummary, hpos, runBatch_errorDetails]
    · simp [mkSummary, hpos]
      rw [runBatch_errorDetails, ← runBatch_errorCount]
  · intro hzero
    have hpos : 0 < (runBatch codec files).successCount := by
      have hlen : 0 < files.length := List.length_pos.mpr hne
      omega
    simp [mkSummary, hzero, hpos]

/-- Witness for C9 at a concrete two-file batch with one failure. -/
theorem C9_witness :
    ((["a.xpt", "b.xpt"] : List String) ≠ []) ∧
    ((mkSummary (runBatch
          (fun n => if n = "a.xpt" then Except.error "bad" else .ok ())
          ["a.xpt", "b.xpt"])).successLine
        + (runBatch
            (fun n => if n = "a.xpt" then Except.error "bad" else .ok ())
            ["a.xpt", "b.xpt"]).errorCount = (["a.xpt", "b.xpt"] : List String).length ∧
      ((runBatch
            (fun n => if n = "a.xpt" then Except.error "bad" else .ok ())
            ["a.xpt", "b.xpt"]).errorCount > 0 →
        (mkSummary (runBatch
              (fun n => if n = "a.xpt" then Except.error "bad" else .ok ())
              ["a.xpt", "b.xpt"])).errorLine
            = some ((runBatch
                (fun n => if n = "a.xpt" then Except.error "bad" else .ok ())
                ["a.xpt", "b.xpt"]).errorCount) ∧
        (mkSummary (runBatch
              (fun n => if n = "a.xpt" then Except.error "bad" else .ok ())
              ["a.xpt", "b.xpt"])).shownDetails
            = (["a.xpt", "b.xpt"] : List String).filterMap
                (failureEntry
                  (fun n => if n = "a.xpt" then Except.error "bad" else .ok ())) ∧
        (mkSummary (runBatch
              (fun n => if n = "a.xpt" then Except.error "bad" else .ok ())
              ["a.xpt", "b.xpt"])).shownDetails.length
            = (runBatch
                (fun n => if n = "a.xpt" then Except.error "bad" else .ok ())
                ["a.xpt", "b.xpt"]).errorCount) ∧
      ((runBatch
            (fun n => if n = "a.xpt" then Except.error "bad" else .ok ())
            ["a.xpt", "b.xpt"]).errorCount = 0 →
        (mkSummary (runBatch
              (fun n => if n = "a.xpt" then Except.error "bad" else .ok ())
              ["a.xpt", "b.xpt"])).noErrorsNote = true)) :=
  ⟨by decide, C9_summary_completeness
    (fun n => if n = "a.xpt" then Except.error "bad" else .ok ())
    ["a.xpt", "b.xpt"] (by decide)⟩

/-- C10: in both modes the output directory is validated first: an empty
output path stops the run with an error and no codec call, a failing
`mkdir` likewise, and the codec is only ever invoked when the output path
was nonempty and its creation succeeded. -/
theorem C10_output_dir_validation :
    (∀ (inputDirStr : String) (mkdirOk isDir : Bool) (entries : List String)
        (codec : String → Except String Unit),
        runDirectoryMode "" inputDirStr mkdirOk isDir entries codec
          = ⟨.outputDirMissing, []⟩) ∧
    (∀ (outputDirStr inputDirStr : String) (isDir : Bool)
        (entries : List String) (codec : String → Except String Unit),
        outputDirStr ≠ "" →
        runDirectoryMode outputDirStr inputDirStr false isDir entries codec
          = ⟨.outputDirInvalid, []⟩) ∧
    (∀ (outputDirStr inputDirStr : String) (mkdirOk isDir : Bool)
        (entries : List String) (codec : String → Except String Unit),
        (runDirectoryMode outputDirStr inputDirStr mkdirOk isDir entries
            codec).callLog ≠ [] →
        outputDirStr ≠ "" ∧ mkdirOk = true) ∧
    (∀ (outerMkdirOk : Bool) (uploaded : Option String) (env : SingleEnv),
        (runSingleMode "" outerMkdirOk uploaded env).codecCalled = false) ∧
    (∀ (outputDirStr : String) (uploaded : Option String) (env : SingleEnv),
        outputDirStr ≠ "" →
        (runSingleMode outputDirStr false uploaded env).codecCalled
          = false) ∧
    (∀ (outputDirStr : String) (outerMkdirOk : Bool)
        (uploaded : Option String) (env : SingleEnv),
        (runSingleMode outputDirStr outerMkdirOk uploaded env).codecCalled
            = true →
        outputDirStr ≠ "" ∧ outerMkdirOk = true ∧ env.mkdirOk = true) := by
  refine ⟨?_, ?_, ?_, ?_, ?_, ?_⟩
  · intro idir mk d entries codec
    simp [runDirectoryMode]
  · intro odir idir d entries codec h
    simp [runDirectoryMode, h]
  · intro odir idir mk d entries codec h
    refine ⟨fun h0 => ?_, ?_⟩
    · subst h0; simp [runDirectoryMode] at h
    · cases mk with
      | false =>
        exfalso
        by_cases h0 : odir = "" <;> simp [runDirectoryMode, h0] at h
      | true => rfl
  · intro omk up env
    by_cases h0 : omk = false <;> cases up <;>
      simp [runSingleMode, h0]
  · intro odir up env h
    cases up <;> simp [runSingleMode, h]
  · intro odir omk up env h
    obtain ⟨emk, etc, etw, erm, ecv⟩ := env
    refine ⟨fun h0 => ?_, ?_, ?_⟩
    · subst h0; simp [runSingleMode] at h
    · cases omk with
      | false =>
        exfalso
        by_cases h0 : odir = "" <;> cases up <;>
          simp [runSingleMode, h0] at h
      | true => rfl
    · cases emk with
      | false =>
        exfalso
        by_cases h0 : odir = "" <;> cases omk <;> cases up <;>
          simp [runSingleMode, runSingleFile, h0] at h
      | true => rfl

/-- Witness for C10: a directory run whose call log is nonempty indeed had
a nonempty, successfully created output directory. -/
theorem C10_witness :
    ((runDirectoryMode "out" "inp" true true ["a.xpt"]
        (fun _ => Except.ok ())).callLog ≠ []) ∧
    (("out" : String) ≠ "" ∧ (true : Bool) = true) :=
  ⟨by decide, C10_output_dir_validation.2.2.1 "out" "inp" true true
    ["a.xpt"] (fun _ => Except.ok ()) (by decide)⟩

end SASConv
